import Mathlib

/-!
# FabMo-Engine OpenSBP runtime — shallow embedding

A shallow embedding of the OpenSBP interpreter of the FabMo engine
(`src/runtime/opensbp.js`) and its 2D transformation library
(`src/runtime/opensbp/transformation.js`), with theorems settling the
frozen claims about the specification.

Modelling conventions:
* JavaScript numbers are modelled as exact rationals (`ℚ`).  The runtime's
  arithmetic never exercises rounding in the properties below; the special
  values `undefined`, `NaN`, `Infinity` and `-Infinity`, which the source
  produces and tests for, are modelled explicitly by the `JSVal` type.
  JavaScript's negative zero is not distinguished from zero.
* Emitted G-code lines are built in the source by string concatenation of
  literal fragments and numbers.  Each line is modelled as a list of tokens,
  one token per operand of the JS `+` chain: `.lit` for a string literal,
  `.jsv v` for the JS rendering `String(v)` of the value `v`, and
  `.fixed4 v` for `v.toFixed(4)`.
* `Math.sqrt` / `Math.atan2` / `Math.cos` / `Math.sin` are not rational
  functions; the `CG` handler is parametrised over a `MathFns` record of
  them, and theorems assume only their values at the (exact) points where
  the concrete programs call them.
* Unbounded JS `for`-loops (the repetition and pocket loops of `CG`) are
  modelled with an explicit fuel parameter; the theorems supply fuel that
  is ample for their concrete inputs, so no loop is truncated.
-/

namespace SBP

/-- A JavaScript value as produced and consumed by the interpreter's
expression evaluator: a (finite) number, a boolean, `undefined`, `NaN`,
`Infinity` or `-Infinity`.  (Strings never flow through the evaluator:
`parseFloat` turns tokens into numbers or `NaN` before any operator.) -/
inductive JSVal where
  | num (q : ℚ)
  | bool (b : Bool)
  | undefined
  | nan
  | pinf
  | ninf
deriving DecidableEq, Repr

namespace JSVal

/-- JS `ToNumber` coercion, as applied by the arithmetic and relational
operators: booleans become 0/1, `undefined` becomes `NaN`. -/
def toNum : JSVal → JSVal
  | num q => num q
  | bool b => num (if b then 1 else 0)
  | undefined => nan
  | nan => nan
  | pinf => pinf
  | ninf => ninf

/-- JS truthiness of a value (`if (v)`): 0, `undefined` and `NaN` are falsy. -/
def truthy : JSVal → Bool
  | num q => q ≠ 0
  | bool b => b
  | undefined => false
  | nan => false
  | pinf => true
  | ninf => true

end JSVal

open JSVal

/-- JS `-v` (numeric negation). -/
def jsNeg (v : JSVal) : JSVal :=
  match v.toNum with
  | .num q => .num (-q)
  | .pinf => .ninf
  | .ninf => .pinf
  | _ => .nan

/-- JS `a + b` on runtime values (both operands are numbers, booleans or
`undefined`/`NaN`/infinities here, so `+` is numeric addition). -/
def jsAdd (a b : JSVal) : JSVal :=
  match a.toNum, b.toNum with
  | .num x, .num y => .num (x + y)
  | .num _, .pinf => .pinf
  | .pinf, .num _ => .pinf
  | .pinf, .pinf => .pinf
  | .num _, .ninf => .ninf
  | .ninf, .num _ => .ninf
  | .ninf, .ninf => .ninf
  | _, _ => .nan

/-- JS `a - b`. -/
def jsSub (a b : JSVal) : JSVal := jsAdd a (jsNeg b)

/-- JS `a * b`. -/
def jsMul (a b : JSVal) : JSVal :=
  match a.toNum, b.toNum with
  | .num x, .num y => .num (x * y)
  | .num x, .pinf => if x > 0 then .pinf else if x < 0 then .ninf else .nan
  | .pinf, .num y => if y > 0 then .pinf else if y < 0 then .ninf else .nan
  | .num x, .ninf => if x > 0 then .ninf else if x < 0 then .pinf else .nan
  | .ninf, .num y => if y > 0 then .ninf else if y < 0 then .pinf else .nan
  | .pinf, .pinf => .pinf
  | .ninf, .ninf => .pinf
  | .pinf, .ninf => .ninf
  | .ninf, .pinf => .ninf
  | _, _ => .nan

/-- JS `a / b`: division by zero yields a signed infinity (`0/0` is `NaN`). -/
def jsDiv (a b : JSVal) : JSVal :=
  match a.toNum, b.toNum with
  | .num x, .num y =>
      if y = 0 then (if x > 0 then .pinf else if x < 0 then .ninf else .nan)
      else .num (x / y)
  | .num _, .pinf => .num 0
  | .num _, .ninf => .num 0
  | .pinf, .num y => if y ≥ 0 then .pinf else .ninf
  | .ninf, .num y => if y ≥ 0 then .ninf else .pinf
  | _, _ => .nan

/-- JS `Math.abs`. -/
def jsAbs (v : JSVal) : JSVal :=
  match v.toNum with
  | .num q => .num |q|
  | .pinf => .pinf
  | .ninf => .pinf
  | _ => .nan

/-- JS `a < b` (numeric coercion; any `NaN` operand makes it false). -/
def jsLtB (a b : JSVal) : Bool :=
  match a.toNum, b.toNum with
  | .num x, .num y => x < y
  | .num _, .pinf => true
  | .ninf, .num _ => true
  | .ninf, .pinf => true
  | _, _ => false

/-- JS `a <= b`. -/
def jsLeB (a b : JSVal) : Bool :=
  match a.toNum, b.toNum with
  | .num x, .num y => x ≤ y
  | .num _, .pinf => true
  | .ninf, .num _ => true
  | .ninf, .pinf => true
  | .pinf, .pinf => true
  | .ninf, .ninf => true
  | _, _ => false

/-- JS loose equality `a == b` on runtime values: `undefined` equals only
`undefined`; otherwise both sides are coerced to numbers and `NaN` is
equal to nothing. -/
def jsLooseEqB (a b : JSVal) : Bool :=
  match a, b with
  | .undefined, .undefined => true
  | .undefined, _ => false
  | _, .undefined => false
  | _, _ =>
      match a.toNum, b.toNum with
      | .num x, .num y => x = y
      | .pinf, .pinf => true
      | .ninf, .ninf => true
      | _, _ => false

/-- JS strict equality `a === b`: no coercion, `NaN` unequal to itself. -/
def jsStrictEqB (a b : JSVal) : Bool :=
  match a, b with
  | .num x, .num y => x = y
  | .bool x, .bool y => x = y
  | .undefined, .undefined => true
  | .pinf, .pinf => true
  | .ninf, .ninf => true
  | _, _ => false

/-- JS `parseFloat(String(v))`, as applied by `_eval_value` to values read
from the user-variable table or the machine status: numbers, `NaN` and the
infinities survive the round trip, booleans and `undefined` parse to `NaN`. -/
def parseFloatJS : JSVal → JSVal
  | .num q => .num q
  | .bool _ => .nan
  | .undefined => .nan
  | .nan => .nan
  | .pinf => .pinf
  | .ninf => .ninf

/-- JS `String(v)` (used only inside thrown error messages). -/
def jsStr : JSVal → String
  | .num q => toString q
  | .bool b => toString b
  | .undefined => "undefined"
  | .nan => "NaN"
  | .pinf => "Infinity"
  | .ninf => "-Infinity"

/-! ## Program syntax

The parser (`src/runtime/opensbp/parser.js`) produces one statement object
per source line; statements and expressions are the tagged variants below.
An expression leaf is the token string the parser left in place; the three
leaf shapes that reach `_eval_value` are a numeric literal, a user-variable
reference `&name` (matched by `USERVAR_RE`) and a system-variable reference
`%(N)` (matched by `SYSVAR_RE`). -/

/-- An expression leaf token. -/
inductive Leaf where
  | num (q : ℚ)
  | uservar (name : String)
  | sysvar (n : ℕ)
deriving DecidableEq, Repr

/-- An expression tree: a leaf, or a binary node `{op, left, right}`.
A node's `op` field is the operator string; a leaf has no `op` field
(`expr.op === undefined` in the source). -/
inductive SBPExpr where
  | leaf (l : Leaf)
  | bin (op : String) (left right : SBPExpr)
deriving DecidableEq, Repr

/-- A parsed statement (the `type` tag of the source's statement objects).
`ret` and `endp` stand for the source's `"return"` and `"end"` variants
(both are reserved words in Lean).  A command's argument list may contain
`none` entries: the parser pushes `undefined` for an empty argument slot. -/
inductive Stmt where
  | cmd (c : String) (args : List (Option SBPExpr))
  | ret
  | endp
  | goto (label : String)
  | gosub (label : String)
  | assign (var : String) (expr : SBPExpr)
  | cond (cmp : SBPExpr) (stmt : Stmt)
  | label (value : String)
  | comment
  | pause (expr : Option SBPExpr)
deriving DecidableEq, Repr

/-! ## G-code lines

One emitted line is a token list; see the header comment for the rendering
convention (`.lit` literal fragment, `.jsv v` = `String(v)`,
`.fixed4 v` = `v.toFixed(4)`). -/

/-- One operand of the string-concatenation chain building a G-code line. -/
inductive GTok where
  | lit (s : String)
  | jsv (v : JSVal)
  | fixed4 (v : JSVal)
deriving DecidableEq, Repr

/-! ## Settings and runtime state -/

/-- The `sbp_settings` record.  The source keeps it as a module-global
singleton (the `sbp_settings` module itself is not under `src/`); it is
modelled as a field of the runtime state, whose entries the handlers read
and write exactly as the source does. -/
structure SbpSettings where
  movexy_speed : JSVal
  movez_speed : JSVal
  movea_speed : JSVal
  moveb_speed : JSVal
  movec_speed : JSVal
  jogxy_speed : JSVal
  jogz_speed : JSVal
  joga_speed : JSVal
  jogb_speed : JSVal
  jogc_speed : JSVal
  cutterDia : JSVal
  pocketOverlap : JSVal
  safeZpullUp : JSVal
  safeApullUp : JSVal
  plungeDir : JSVal
  gearBoxRatio1 : JSVal
deriving DecidableEq, Repr

/-- The mutable state of an `SBPRuntime` instance (constructor plus the
fields written by `init`/`_update`), together with the machine-status
positions read by `evaluateSystemVariable` (`machine.status.pos*`).
The return `stack` holds the values pushed by `gosub`, most recent first
(JS `push`/`pop` act at the array's end); the source pushes the singleton
array `[pc + 1]`, whose only subsequent uses coerce it back to its
element, so an entry is modelled as that element. -/
structure RTState where
  program : List (Option Stmt) := []
  pc : JSVal := .num 0
  start_of_the_chunk : JSVal := .num 0
  user_vars : List (String × JSVal) := []
  label_index : List (String × ℕ) := []
  stack : List JSVal := []
  current_chunk : List (List GTok) := []
  started : Bool := false
  sysvar_evaluated : Bool := false
  settings : SbpSettings
  cmd_posx : JSVal := .num 0
  cmd_posy : JSVal := .num 0
  cmd_posz : JSVal := .num 0
  cmd_posa : JSVal := .num 0
  cmd_posb : JSVal := .num 0
  cmd_posc : JSVal := .num 0
  posx : JSVal := .num 0
  posy : JSVal := .num 0
  posz : JSVal := .num 0
  posa : JSVal := .num 0
  posb : JSVal := .num 0
  posc : JSVal := .num 0
  status_posx : JSVal := .num 0
  status_posy : JSVal := .num 0
  status_posz : JSVal := .num 0
  status_posa : JSVal := .num 0
  status_posb : JSVal := .num 0
  status_posc : JSVal := .num 0
deriving DecidableEq, Repr

/-- Assoc-list lookup standing for a JS object property read. -/
def lookup {α : Type} (key : String) : List (String × α) → Option α
  | [] => none
  | (k, v) :: rest => if k = key then some v else lookup key rest

/-- Assoc-list update standing for a JS object property write. -/
def setKey {α : Type} (key : String) (val : α) : List (String × α) → List (String × α)
  | [] => [(key, val)]
  | (k, v) :: rest => if k = key then (k, val) :: rest else (k, v) :: setKey key val rest

/-- `emit_gcode`: append a G-code line to the current chunk. -/
def emit_gcode (s : RTState) (line : List GTok) : RTState :=
  { s with current_chunk := s.current_chunk ++ [line] }

/-- `args[i]` on an evaluated-argument list (out-of-range reads give
`undefined`, as in JS). -/
def argGet (args : List JSVal) (i : ℕ) : JSVal := args.getD i .undefined

/-- `args[i] !== undefined ? args[i] : dflt` — the inline default pattern
used by the `CG`/`CR` handlers. -/
def argDef (args : List JSVal) (i : ℕ) (dflt : JSVal) : JSVal :=
  if argGet args i = .undefined then dflt else argGet args i

/-! ## Expression evaluation (`_eval_value`, `_eval`) -/

/-- `evaluateSystemVariable`: on a `%(N)` token, dispatch on the selector;
positions come from the machine status, speeds from the settings; an
unknown selector returns `null` (modelled as `none`).  Any non-`%(N)`
token — and equally a selector whose status entry is itself `undefined` —
makes the function return the JS value `undefined` (`some .undefined` or the
entry's value). -/
def evaluateSystemVariable (s : RTState) : Leaf → Option JSVal
  | .sysvar n =>
      match n with
      | 1 => some s.status_posx
      | 2 => some s.status_posy
      | 3 => some s.status_posz
      | 4 => some s.status_posa
      | 5 => some s.status_posb
      | 71 => some s.settings.movexy_speed
      | 72 => some s.settings.movexy_speed
      | 73 => some s.settings.movez_speed
      | 74 => some s.settings.movea_speed
      | 75 => some s.settings.moveb_speed
      | 76 => some s.settings.movec_speed
      | 144 => some s.status_posc
      | _ => none
  | _ => some .undefined

/-- `evaluateUserVariable`: on an `&name` token, return the stored value if
the name is a key of `user_vars`, else `null` (`none`); any other token
returns `undefined`. -/
def evaluateUserVariable (s : RTState) : Leaf → Option JSVal
  | .uservar name =>
      match lookup name s.user_vars with
      | some v => some v
      | none => none
  | _ => some .undefined

/-- `parseFloat(expr)` on the raw leaf token — only reached when neither
variable table matched, i.e. for numeric literals (and for a variable
token whose lookup produced the value `undefined`, in which case the token
itself does not parse as a number). -/
def leafParseFloat : Leaf → JSVal
  | .num q => .num q
  | .uservar _ => .nan
  | .sysvar _ => .nan

/-- `_eval_value`: resolve a leaf token.  Returns the value and whether a
system variable was read (`this.sysvar_evaluated = true`).  The source's
two `ERROR` branches (`sys_var === null`, `user_var === null`) contain
only comments, so the function falls off its end and returns `undefined`
in both cases. -/
def _eval_value (s : RTState) (l : Leaf) : JSVal × Bool :=
  match evaluateSystemVariable s l with
  | some .undefined =>
      match evaluateUserVariable s l with
      | some .undefined => (leafParseFloat l, false)
      | none => (.undefined, false)         -- ERROR UNDEFINED VARIABLE (comment only)
      | some v => (parseFloatJS v, false)
  | none => (.undefined, false)             -- ERROR UNKNOWN SYSTEM VARIABLE (comment only)
  | some v => (parseFloatJS v, true)

/-- The binary operator table of `_eval`: the function applied to the two
operand values, or `none` for an operator not in the `switch`, which makes
`_eval` throw before evaluating either operand. -/
def evalOp : String → Option (JSVal → JSVal → JSVal)
  | "+" => some jsAdd
  | "-" => some jsSub
  | "*" => some jsMul
  | "/" => some jsDiv
  | ">" => some (fun a b => .bool (jsLtB b a))
  | "<" => some (fun a b => .bool (jsLtB a b))
  | ">=" => some (fun a b => .bool (jsLeB b a))
  | "<=" => some (fun a b => .bool (jsLeB a b))
  | "==" => some (fun a b => .bool (jsLooseEqB a b))
  | "=" => some (fun a b => .bool (jsLooseEqB a b))
  | "!=" => some (fun a b => .bool (! jsLooseEqB a b))
  | _ => none

/-- `_eval`: evaluate an expression.  Returns the value together with the
system-variable-read flag accumulated during evaluation; throwing
(`"Unhandled operation: " + op`) is modelled as `Except.error`. -/
def _eval (s : RTState) : SBPExpr → Except String (JSVal × Bool)
  | .leaf l => .ok (_eval_value s l)
  | .bin op left right =>
      match evalOp op with
      | none => .error ("Unhandled operation: " ++ op)
      | some f => do
          let (lv, lf) ← _eval s left
          let (rv, rf) ← _eval s right
          .ok (f lv rv, lf || rf)

/-! ## Stack-break classifier (`_breaksStack`, `_exprBreaksStack`) -/

/-- The declared parameter count (`f.length`) of each command handler on
the `SBPRuntime` prototype: `2` for the handlers taking `(args, callback)`
— the zeroing commands `ZX`..`ZC`/`Z2` and the driver-round-trip settings
commands `VA`/`VU` — and `1` for every handler taking `(args)` alone.
`none` for a name that is not a registered handler. -/
def handlerArity : String → Option ℕ
  | "FP" => some 1 | "FE" => some 1 | "FN" => some 1 | "FG" => some 1
  | "FC" => some 1 | "FS" => some 1
  | "MX" => some 1 | "MY" => some 1 | "MZ" => some 1 | "MA" => some 1
  | "MB" => some 1 | "MC" => some 1 | "M2" => some 1 | "M3" => some 1
  | "M4" => some 1 | "M5" => some 1 | "M6" => some 1 | "MH" => some 1
  | "MS" => some 1 | "MI" => some 1 | "MO" => some 1
  | "JX" => some 1 | "JY" => some 1 | "JZ" => some 1 | "JA" => some 1
  | "JB" => some 1 | "JC" => some 1 | "J2" => some 1 | "J3" => some 1
  | "J4" => some 1 | "J5" => some 1 | "J6" => some 1 | "JH" => some 1
  | "JS" => some 1
  | "CG" => some 1 | "CR" => some 1
  | "ZX" => some 2 | "ZY" => some 2 | "ZZ" => some 2 | "ZA" => some 2
  | "ZB" => some 2 | "ZC" => some 2 | "Z2" => some 2
  | "Z3" => some 1 | "Z4" => some 1 | "Z5" => some 1 | "Z6" => some 1
  | "ZT" => some 1
  | "SA" => some 1 | "SR" => some 1 | "SM" => some 1 | "SP" => some 1
  | "ST" => some 1 | "C6" => some 1 | "C7" => some 1
  | "VA" => some 2 | "VC" => some 1 | "VD" => some 1 | "VL" => some 1
  | "VN" => some 1 | "VP" => some 1 | "VR" => some 1 | "VS" => some 1
  | "VU" => some 2
  | "EP" => some 1
  | _ => none

/-- `_breaksStack`: a `cmd` breaks the stack exactly when its registered
handler's declared arity exceeds 1 (`f.length > 1`); the `pause`, `cond`
and `assign` cases all set `result = false` (the expression checks via
`_exprBreaksStack` are commented out in the source), as does the default
case. -/
def _breaksStack : Stmt → Bool
  | .cmd name _ =>
      match handlerArity name with
      | some a => decide (a > 1)
      | none => false
  | .pause _ => false
  | .cond _ _ => false
  | .assign _ _ => false
  | _ => false

/-- `_exprBreaksStack`: a leaf breaks the stack when its token string
starts with `'%'` (a system-variable reference); a binary node when either
side does.  (Dead code in the source: its only call sites are commented
out inside `_breaksStack`.) -/
def _exprBreaksStack : SBPExpr → Bool
  | .leaf l =>
      match l with
      | .sysvar _ => true
      | _ => false
  | .bin _ left right => _exprBreaksStack left || _exprBreaksStack right

/-! ## Program analysis (`_analyzeLabels`, `_analyzeGOTOs`) -/

/-- `_analyzeLabels`: walk the program, recording `label value → index`;
a second occurrence of a label name throws `"Duplicate label."`. -/
def _analyzeLabels (program : List (Option Stmt)) : Except String (List (String × ℕ)) :=
  go 0 [] program
where
  /-- The loop body, carrying the current index and the table built so far. -/
  go (i : ℕ) (acc : List (String × ℕ)) : List (Option Stmt) → Except String (List (String × ℕ))
    | [] => .ok acc
    | line :: rest =>
        match line with
        | some (.label value) =>
            if lookup value acc ≠ none then .error "Duplicate label."
            else go (i + 1) (setKey value i acc) rest
        | _ => go (i + 1) acc rest

/-- The `label` property of a statement object (`undefined` for the
statement variants that have no such field). -/
def stmtLabel : Stmt → Option String
  | .goto l => some l
  | .gosub l => some l
  | _ => none

/-- `_analyzeGOTOs`: check every `goto`/`gosub` target against the label
table.  The `cond` case reassigns `line = line.stmt` and deliberately
falls through into the `goto`/`gosub` check *without testing the type of
the inner statement*: for a `cond` whose inner statement has no `label`
field the property read yields `undefined`, `undefined in label_index` is
false, and the pass throws `"Undefined label undefined on line N"`
(line numbers are reported 1-based, `i + 1`). -/
def _analyzeGOTOs (program : List (Option Stmt)) (label_index : List (String × ℕ)) :
    Except String Unit :=
  go 0 program
where
  /-- The loop body, carrying the current (0-based) index. -/
  go (i : ℕ) : List (Option Stmt) → Except String Unit
    | [] => .ok ()
    | line :: rest =>
        match line with
        | some l =>
            match l with
            | .cond _ inner =>
                -- fall-through target: the check below runs on `inner`
                match stmtLabel inner with
                | some lab =>
                    if lookup lab label_index ≠ none then go (i + 1) rest
                    else .error ("Undefined label " ++ lab ++ " on line " ++ toString (i + 1))
                | none =>
                    .error ("Undefined label undefined on line " ++ toString (i + 1))
            | .goto lab =>
                if lookup lab label_index ≠ none then go (i + 1) rest
                else .error ("Undefined label " ++ lab ++ " on line " ++ toString (i + 1))
            | .gosub lab =>
                if lookup lab label_index ≠ none then go (i + 1) rest
                else .error ("Undefined label " ++ lab ++ " on line " ++ toString (i + 1))
            | _ => go (i + 1) rest
        | none => go (i + 1) rest

/-! ## Command handlers

Each non-breaking handler takes the evaluated argument list and transforms
the runtime state (chunk, settings, commanded position) exactly as its
source function does.  The `JS`/`VS` handlers additionally issue
fire-and-forget driver parameter writes (`this.command({...})`) which
touch no runtime state and are external effects outside this model. -/

/-- `MX`: move the X axis. -/
def MX (s : RTState) (args : List JSVal) : RTState :=
  let s := emit_gcode s [.lit "G1 X", .jsv (argGet args 0), .lit " F",
                         .jsv (jsMul (.num 60) s.settings.movexy_speed)]
  { s with cmd_posx := argGet args 0 }

/-- `MY`: move the Y axis. -/
def MY (s : RTState) (args : List JSVal) : RTState :=
  let s := emit_gcode s [.lit "G1Y", .jsv (argGet args 0), .lit " F",
                         .jsv (jsMul (.num 60) s.settings.movexy_speed)]
  { s with cmd_posy := argGet args 0 }

/-- `MZ`: move the Z axis. -/
def MZ (s : RTState) (args : List JSVal) : RTState :=
  let s := emit_gcode s [.lit "G1Z", .jsv (argGet args 0), .lit " F",
                         .jsv (jsMul (.num 60) s.settings.movez_speed)]
  { s with cmd_posz := argGet args 0 }

/-- `MA`: move the A axis. -/
def MA (s : RTState) (args : List JSVal) : RTState :=
  let s := emit_gcode s [.lit "G1A", .jsv (argGet args 0), .lit " F",
                         .jsv (jsMul (.num 60) s.settings.movea_speed)]
  { s with cmd_posa := argGet args 0 }

/-- `MB`: move the B axis. -/
def MB (s : RTState) (args : List JSVal) : RTState :=
  let s := emit_gcode s [.lit "G1B", .jsv (argGet args 0), .lit " F",
                         .jsv (jsMul (.num 60) s.settings.moveb_speed)]
  { s with cmd_posb := argGet args 0 }

/-- `MC`: move the C axis. -/
def MC (s : RTState) (args : List JSVal) : RTState :=
  let s := emit_gcode s [.lit "G1C", .jsv (argGet args 0), .lit " F",
                         .jsv (jsMul (.num 60) s.settings.movec_speed)]
  { s with cmd_posc := argGet args 0 }

/-- `M2`: modal XY move — omitted axes emit no letter and leave their
commanded position untouched. -/
def M2 (s : RTState) (args : List JSVal) : RTState :=
  let outStr : List GTok := [.lit "G1"]
  let (outStr, s) := if argGet args 0 ≠ .undefined
    then (outStr ++ [.lit "X", .jsv (argGet args 0)], { s with cmd_posx := argGet args 0 })
    else (outStr, s)
  let (outStr, s) := if argGet args 1 ≠ .undefined
    then (outStr ++ [.lit "Y", .jsv (argGet args 1)], { s with cmd_posy := argGet args 1 })
    else (outStr, s)
  emit_gcode s (outStr ++ [.lit "F", .jsv (jsMul (.num 60) s.settings.movexy_speed)])

/-- `M3`: modal XYZ move. -/
def M3 (s : RTState) (args : List JSVal) : RTState :=
  let outStr : List GTok := [.lit "G1"]
  let (outStr, s) := if argGet args 0 ≠ .undefined
    then (outStr ++ [.lit "X", .jsv (argGet args 0)], { s with cmd_posx := argGet args 0 })
    else (outStr, s)
  let (outStr, s) := if argGet args 1 ≠ .undefined
    then (outStr ++ [.lit "Y", .jsv (argGet args 1)], { s with cmd_posy := argGet args 1 })
    else (outStr, s)
  let (outStr, s) := if argGet args 2 ≠ .undefined
    then (outStr ++ [.lit "Z", .jsv (argGet args 2)], { s with cmd_posz := argGet args 2 })
    else (outStr, s)
  emit_gcode s (outStr ++ [.lit "F", .jsv (jsMul (.num 60) s.settings.movexy_speed)])

/-- `M4`: modal XYZA move. -/
def M4 (s : RTState) (args : List JSVal) : RTState :=
  let outStr : List GTok := [.lit "G1"]
  let (outStr, s) := if argGet args 0 ≠ .undefined
    then (outStr ++ [.lit "X", .jsv (argGet args 0)], { s with cmd_posx := argGet args 0 })
    else (outStr, s)
  let (outStr, s) := if argGet args 1 ≠ .undefined
    then (outStr ++ [.lit "Y", .jsv (argGet args 1)], { s with cmd_posy := argGet args 1 })
    else (outStr, s)
  let (outStr, s) := if argGet args 2 ≠ .undefined
    then (outStr ++ [.lit "Z", .jsv (argGet args 2)], { s with cmd_posz := argGet args 2 })
    else (outStr, s)
  let (outStr, s) := if argGet args 3 ≠ .undefined
    then (outStr ++ [.lit "A", .jsv (argGet args 3)], { s with cmd_posa := argGet args 3 })
    else (outStr, s)
  emit_gcode s (outStr ++ [.lit "F", .jsv (jsMul (.num 60) s.settings.movexy_speed)])

/-- `M5`: modal XYZAB move. -/
def M5 (s : RTState) (args : List JSVal) : RTState :=
  let outStr : List GTok := [.lit "G1"]
  let (outStr, s) := if argGet args 0 ≠ .undefined
    then (outStr ++ [.lit "X", .jsv (argGet args 0)], { s with cmd_posx := argGet args 0 })
    else (outStr, s)
  let (outStr, s) := if argGet args 1 ≠ .undefined
    then (outStr ++ [.lit "Y", .jsv (argGet args 1)], { s with cmd_posy := argGet args 1 })
    else (outStr, s)
  let (outStr, s) := if argGet args 2 ≠ .undefined
    then (outStr ++ [.lit "Z", .jsv (argGet args 2)], { s with cmd_posz := argGet args 2 })
    else (outStr, s)
  let (outStr, s) := if argGet args 3 ≠ .undefined
    then (outStr ++ [.lit "A", .jsv (argGet args 3)], { s with cmd_posa := argGet args 3 })
    else (outStr, s)
  let (outStr, s) := if argGet args 4 ≠ .undefined
    then (outStr ++ [.lit "B", .jsv (argGet args 4)], { s with cmd_posb := argGet args 4 })
    else (outStr, s)
  emit_gcode s (outStr ++ [.lit "F", .jsv (jsMul (.num 60) s.settings.movexy_speed)])

/-- `M6`: modal XYZABC move.  Note that, unlike `MX`..`MC` and `M2`..`M5`,
the source appends `"F" + sbp_settings.movexy_speed` with *no* factor 60. -/
def M6 (s : RTState) (args : List JSVal) : RTState :=
  let outStr : List GTok := [.lit "G1"]
  let (outStr, s) := if argGet args 0 ≠ .undefined
    then (outStr ++ [.lit "X", .jsv (argGet args 0)], { s with cmd_posx := argGet args 0 })
    else (outStr, s)
  let (outStr, s) := if argGet args 1 ≠ .undefined
    then (outStr ++ [.lit "Y", .jsv (argGet args 1)], { s with cmd_posy := argGet args 1 })
    else (outStr, s)
  let (outStr, s) := if argGet args 2 ≠ .undefined
    then (outStr ++ [.lit "Z", .jsv (argGet args 2)], { s with cmd_posz := argGet args 2 })
    else (outStr, s)
  let (outStr, s) := if argGet args 3 ≠ .undefined
    then (outStr ++ [.lit "A", .jsv (argGet args 3)], { s with cmd_posa := argGet args 3 })
    else (outStr, s)
  let (outStr, s) := if argGet args 4 ≠ .undefined
    then (outStr ++ [.lit "B", .jsv (argGet args 4)], { s with cmd_posb := argGet args 4 })
    else (outStr, s)
  let (outStr, s) := if argGet args 5 ≠ .undefined
    then (outStr ++ [.lit "C", .jsv (argGet args 5)], { s with cmd_posc := argGet args 5 })
    else (outStr, s)
  emit_gcode s (outStr ++ [.lit "F", .jsv s.settings.movexy_speed])

/-- `MH`: move to the XY home position.  As in `M6`, the feed word is the
raw `movexy_speed` with no factor 60. -/
def MH (s : RTState) (_args : List JSVal) : RTState :=
  let s := emit_gcode s [.lit "G1X0Y0", .lit " F", .jsv s.settings.movexy_speed]
  { s with cmd_posx := .num 0, cmd_posy := .num 0 }

/-- `MS`: set the move speeds for the axes provided. -/
def MS (s : RTState) (args : List JSVal) : RTState :=
  let s := if argGet args 0 ≠ .undefined
    then { s with settings := { s.settings with movexy_speed := argGet args 0 } } else s
  let s := if argGet args 1 ≠ .undefined
    then { s with settings := { s.settings with movez_speed := argGet args 1 } } else s
  let s := if argGet args 2 ≠ .undefined
    then { s with settings := { s.settings with movea_speed := argGet args 2 } } else s
  let s := if argGet args 3 ≠ .undefined
    then { s with settings := { s.settings with moveb_speed := argGet args 3 } } else s
  let s := if argGet args 4 ≠ .undefined
    then { s with settings := { s.settings with movec_speed := argGet args 4 } } else s
  s

/-- `JX`: jog (rapid) the X axis. -/
def JX (s : RTState) (args : List JSVal) : RTState :=
  { emit_gcode s [.lit "G0X", .jsv (argGet args 0)] with cmd_posx := argGet args 0 }

/-- `JY`: jog (rapid) the Y axis. -/
def JY (s : RTState) (args : List JSVal) : RTState :=
  { emit_gcode s [.lit "G0Y", .jsv (argGet args 0)] with cmd_posy := argGet args 0 }

/-- `JZ`: jog (rapid) the Z axis. -/
def JZ (s : RTState) (args : List JSVal) : RTState :=
  { emit_gcode s [.lit "G0Z", .jsv (argGet args 0)] with cmd_posz := argGet args 0 }

/-- `JA`: jog (rapid) the A axis. -/
def JA (s : RTState) (args : List JSVal) : RTState :=
  { emit_gcode s [.lit "G0A", .jsv (argGet args 0)] with cmd_posa := argGet args 0 }

/-- `JB`: jog (rapid) the B axis. -/
def JB (s : RTState) (args : List JSVal) : RTState :=
  { emit_gcode s [.lit "G0B", .jsv (argGet args 0)] with cmd_posb := argGet args 0 }

/-- `JC`: jog (rapid) the C axis. -/
def JC (s : RTState) (args : List JSVal) : RTState :=
  { emit_gcode s [.lit "G0C", .jsv (argGet args 0)] with cmd_posc := argGet args 0 }

/-- `J2`: modal XY jog. -/
def J2 (s : RTState) (args : List JSVal) : RTState :=
  let outStr : List GTok := [.lit "G0"]
  let (outStr, s) := if argGet args 0 ≠ .undefined
    then (outStr ++ [.lit "X", .jsv (argGet args 0)], { s with cmd_posx := argGet args 0 })
    else (outStr, s)
  let (outStr, s) := if argGet args 1 ≠ .undefined
    then (outStr ++ [.lit "Y", .jsv (argGet args 1)], { s with cmd_posy := argGet args 1 })
    else (outStr, s)
  emit_gcode s outStr

/-- `J3`: modal XYZ jog. -/
def J3 (s : RTState) (args : List JSVal) : RTState :=
  let outStr : List GTok := [.lit "G0"]
  let (outStr, s) := if argGet args 0 ≠ .undefined
    then (outStr ++ [.lit "X", .jsv (argGet args 0)], { s with cmd_posx := argGet args 0 })
    else (outStr, s)
  let (outStr, s) := if argGet args 1 ≠ .undefined
    then (outStr ++ [.lit "Y", .jsv (argGet args 1)], { s with cmd_posy := argGet args 1 })
    else (outStr, s)
  let (outStr, s) := if argGet args 2 ≠ .undefined
    then (outStr ++ [.lit "Z", .jsv (argGet args 2)], { s with cmd_posz := argGet args 2 })
    else (outStr, s)
  emit_gcode s outStr

/-- `J4`: modal XYZA jog. -/
def J4 (s : RTState) (args : List JSVal) : RTState :=
  let outStr : List GTok := [.lit "G0"]
  let (outStr, s) := if argGet args 0 ≠ .undefined
    then (outStr ++ [.lit "X", .jsv (argGet args 0)], { s with cmd_posx := argGet args 0 })
    else (outStr, s)
  let (outStr, s) := if argGet args 1 ≠ .undefined
    then (outStr ++ [.lit "Y", .jsv (argGet args 1)], { s with cmd_posy := argGet args 1 })
    else (outStr, s)
  let (outStr, s) := if argGet args 2 ≠ .undefined
    then (outStr ++ [.lit "Z", .jsv (argGet args 2)], { s with cmd_posz := argGet args 2 })
    else (outStr, s)
  let (outStr, s) := if argGet args 3 ≠ .undefined
    then (outStr ++ [.lit "A", .jsv (argGet args 3)], { s with cmd_posa := argGet args 3 })
    else (outStr, s)
  emit_gcode s outStr

/-- `J5`: modal XYZAB jog. -/
def J5 (s : RTState) (args : List JSVal) : RTState :=
  let outStr : List GTok := [.lit "G0"]
  let (outStr, s) := if argGet args 0 ≠ .undefined
    then (outStr ++ [.lit "X", .jsv (argGet args 0)], { s with cmd_posx := argGet args 0 })
    else (outStr, s)
  let (outStr, s) := if argGet args 1 ≠ .undefined
    then (outStr ++ [.lit "Y", .jsv (argGet args 1)], { s with cmd_posy := argGet args 1 })
    else (outStr, s)
  let (outStr, s) := if argGet args 2 ≠ .undefined
    then (outStr ++ [.lit "Z", .jsv (argGet args 2)], { s with cmd_posz := argGet args 2 })
    else (outStr, s)
  let (outStr, s) := if argGet args 3 ≠ .undefined
    then (outStr ++ [.lit "A", .jsv (argGet args 3)], { s with cmd_posa := argGet args 3 })
    else (outStr, s)
  let (outStr, s) := if argGet args 4 ≠ .undefined
    then (outStr ++ [.lit "B", .jsv (argGet args 4)], { s with cmd_posb := argGet args 4 })
    else (outStr, s)
  emit_gcode s outStr

/-- `J6`: modal XYZABC jog. -/
def J6 (s : RTState) (args : List JSVal) : RTState :=
  let outStr : List GTok := [.lit "G0"]
  let (outStr, s) := if argGet args 0 ≠ .undefined
    then (outStr ++ [.lit "X", .jsv (argGet args 0)], { s with cmd_posx := argGet args 0 })
    else (outStr, s)
  let (outStr, s) := if argGet args 1 ≠ .undefined
    then (outStr ++ [.lit "Y", .jsv (argGet args 1)], { s with cmd_posy := argGet args 1 })
    else (outStr, s)
  let (outStr, s) := if argGet args 2 ≠ .undefined
    then (outStr ++ [.lit "Z", .jsv (argGet args 2)], { s with cmd_posz := argGet args 2 })
    else (outStr, s)
  let (outStr, s) := if argGet args 3 ≠ .undefined
    then (outStr ++ [.lit "A", .jsv (argGet args 3)], { s with cmd_posa := argGet args 3 })
    else (outStr, s)
  let (outStr, s) := if argGet args 4 ≠ .undefined
    then (outStr ++ [.lit "B", .jsv (argGet args 4)], { s with cmd_posb := argGet args 4 })
    else (outStr, s)
  let (outStr, s) := if argGet args 5 ≠ .undefined
    then (outStr ++ [.lit "C", .jsv (argGet args 5)], { s with cmd_posc := argGet args 5 })
    else (outStr, s)
  emit_gcode s outStr

/-- `JH`: jog XY to the home position (0,0). -/
def JH (s : RTState) (_args : List JSVal) : RTState :=
  emit_gcode { s with cmd_posx := .num 0, cmd_posy := .num 0 } [.lit "G0X0Y0"]

/-- `JS`: set the jog speeds for the axes provided (the paired
`this.command({..vm})` driver writes are external fire-and-forget
effects). -/
def JS (s : RTState) (args : List JSVal) : RTState :=
  let s := if argGet args 0 ≠ .undefined
    then { s with settings := { s.settings with jogxy_speed := argGet args 0 } } else s
  let s := if argGet args 1 ≠ .undefined
    then { s with settings := { s.settings with jogz_speed := argGet args 1 } } else s
  let s := if argGet args 2 ≠ .undefined
    then { s with settings := { s.settings with joga_speed := argGet args 2 } } else s
  let s := if argGet args 3 ≠ .undefined
    then { s with settings := { s.settings with jogb_speed := argGet args 3 } } else s
  let s := if argGet args 4 ≠ .undefined
    then { s with settings := { s.settings with jogc_speed := argGet args 4 } } else s
  s

/-! ## `CG` — cut circle/arc

`Math.sqrt`/`Math.atan2`/`Math.cos`/`Math.sin` enter through a `MathFns`
record; the two unbounded `for` loops are driven by a fuel parameter. -/

/-- The real-math primitives used by `CG`, on finite numbers. -/
structure MathFns where
  sqrt : ℚ → ℚ
  atan2 : ℚ → ℚ → ℚ
  cos : ℚ → ℚ
  sin : ℚ → ℚ

/-- `Math.sqrt` lifted to runtime values (negative argument gives `NaN`;
non-finite arguments are not exercised by the programs considered). -/
def jsSqrt (m : MathFns) (v : JSVal) : JSVal :=
  match v.toNum with
  | .num q => if q < 0 then .nan else .num (m.sqrt q)
  | .pinf => .pinf
  | _ => .nan

/-- `Math.cos` lifted to runtime values. -/
def jsCos (m : MathFns) (v : JSVal) : JSVal :=
  match v.toNum with
  | .num q => .num (m.cos q)
  | _ => .nan

/-- `Math.sin` lifted to runtime values. -/
def jsSin (m : MathFns) (v : JSVal) : JSVal :=
  match v.toNum with
  | .num q => .num (m.sin q)
  | _ => .nan

/-- `Math.atan2(y, x)` lifted to runtime values. -/
def jsAtan2 (m : MathFns) (y x : JSVal) : JSVal :=
  match y.toNum, x.toNum with
  | .num a, .num b => .num (m.atan2 a b)
  | _, _ => .nan

/-- The local bindings of one `CG` invocation, shared by its loops.
`stg` is the settings record *after* the overwrites at the top of the
handler; the remaining fields are the corresponding `var`s of the source. -/
structure CGCtx where
  stg : SbpSettings
  startX : JSVal
  startY : JSVal
  startZ : JSVal
  endX : JSVal
  endY : JSVal
  centerX : JSVal
  centerY : JSVal
  Dir : JSVal
  Plg : JSVal
  reps : JSVal
  optCG : JSVal
  noPullUp : JSVal
  plgFromZero : JSVal
  safeZCG : JSVal
  circRadius : JSVal
  Pocket_StepX : JSVal
  Pocket_StepY : JSVal
deriving Repr

/-- The inner pocket loop of `CG` (option 2):
`for (j=0; |StepX·j| ≤ R && |StepY·j| ≤ R; j++)` — reposition (for `j>0`)
then one full `G2`/`G3` circle per pass.  The loop body only emits G-code
(`this.emit_gcode(...)`), so it is modelled as the ordered list of lines it
appends to the chunk. -/
def CG_pocketPass (c : CGCtx) : ℕ → ℕ → List (List GTok)
  | 0, _ => []
  | fuel + 1, j =>
      if jsLeB (jsAbs (jsMul c.Pocket_StepX (.num (j : ℚ)))) c.circRadius
          && jsLeB (jsAbs (jsMul c.Pocket_StepY (.num (j : ℚ)))) c.circRadius then
        (if 0 < j then
            [[.lit "G1X", .fixed4 (jsAdd (jsMul (.num (j : ℚ)) c.Pocket_StepX) c.startX),
              .lit "Y", .fixed4 (jsAdd (jsMul (.num (j : ℚ)) c.Pocket_StepY) c.startY),
              .lit "F", .jsv c.stg.movexy_speed]]
          else []) ++
        [(if jsLooseEqB c.Dir (.num 1) then [GTok.lit "G2"] else [GTok.lit "G3"]) ++
          [.lit "X", .fixed4 (jsAdd c.startX (jsMul (.num (j : ℚ)) c.Pocket_StepX)),
           .lit "Y", .fixed4 (jsAdd c.startY (jsMul (.num (j : ℚ)) c.Pocket_StepY)),
           .lit "I", .fixed4 (jsSub c.centerX (jsMul (.num (j : ℚ)) c.Pocket_StepX)),
           .lit "J", .fixed4 (jsSub c.centerY (jsMul (.num (j : ℚ)) c.Pocket_StepY)),
           .lit "F", .jsv c.stg.movexy_speed]] ++
        CG_pocketPass c fuel (j + 1)
      else []

/-- The repetition loop of `CG`: `for (i=0; i<reps; i++)`, carrying the
mutable `currentZ`.  As with the pocket pass, the body only emits G-code,
so the loop is modelled as the ordered list of emitted lines paired with
the final `currentZ`.  `pfuel` is the fuel handed to each pocket pass. -/
def CG_repLoop (c : CGCtx) (pfuel : ℕ) : ℕ → ℕ → JSVal → List (List GTok) × JSVal
  | 0, _, currentZ => ([], currentZ)
  | fuel + 1, i, currentZ =>
      if jsLtB (.num (i : ℚ)) c.reps then
        let (plunge, currentZ) :=
          if ! jsStrictEqB c.Plg (.num 0) && jsLtB c.optCG (.num 3) then
            let z := jsAdd currentZ c.Plg
            ([[GTok.lit "G1Z", GTok.jsv z, GTok.lit "F", GTok.jsv c.stg.movez_speed]], z)
          else ([], currentZ)
        if jsLooseEqB c.optCG (.num 2) then
          let lines := plunge ++ CG_pocketPass c pfuel 0 ++
            [[GTok.lit "G0Z", GTok.jsv c.safeZCG],
             [GTok.lit "G0X", GTok.jsv c.startX, GTok.lit "Y", GTok.jsv c.startY]]
          let (rest, z) := CG_repLoop c pfuel fuel (i + 1) currentZ
          (lines ++ rest, z)
        else
          let outStr : List GTok :=
            if jsLooseEqB c.Dir (.num 1) then [.lit "G2X", .jsv c.endX, .lit "Y", .jsv c.endY]
            else [.lit "G3X", .jsv c.endX, .lit "Y", .jsv c.endY]
          let (outStr, currentZ) :=
            if ! jsStrictEqB c.Plg (.num 0) && jsStrictEqB c.optCG (.num 3) then
              (outStr ++ [.lit "Z", .jsv (jsAdd currentZ c.Plg)], jsAdd currentZ c.Plg)
            else (outStr, currentZ)
          let lines := [outStr ++
            [GTok.lit "I", GTok.jsv c.centerX, GTok.lit "K", GTok.jsv c.centerY,
             GTok.lit "F", GTok.jsv c.stg.movexy_speed]]
          let lines := lines ++
            (if jsLtB (.num ((i : ℚ) + 1)) c.reps
                && (! jsLooseEqB c.endX c.startX || ! jsLooseEqB c.endY c.startY) then
              [[GTok.lit "G0Z", GTok.jsv c.safeZCG],
               [GTok.lit "G0X", GTok.jsv c.startX, GTok.lit "Y", GTok.jsv c.startY]]
            else [])
          let (rest, z) := CG_repLoop c pfuel fuel (i + 1) currentZ
          (lines ++ rest, z)
      else ([], currentZ)

/-- `CG`: cut circle/arc.  The handler *begins by unconditionally
overwriting* `cutterDia` (0.25), `pocketOverlap` (10) and `safeZpullUp`
(0.25) in the settings record, so any previously configured values of
those three settings never reach the geometry below.  Argument slots
(1-based as in the usage comment of the source): 1–2 end X/Y, 3–4 centre
X/Y offsets, 5 I/O/T (declared, unused), 6 direction, 7 plunge, 8 reps,
9–10 propX/propY (unused; slot 10 is assigned the array literal `[10]`
when present — a latent slip, also unused), 11 option, 12 noPullUp,
13 plungeFromZero. -/
def CG (m : MathFns) (fuel : ℕ) (s0 : RTState) (args : List JSVal) : RTState :=
  let s := { s0 with settings := { s0.settings with
               cutterDia := .num (1/4), pocketOverlap := .num 10, safeZpullUp := .num (1/4) } }
  let stg := s.settings
  let startX := s.cmd_posx
  let startY := s.cmd_posy
  let startZ := s.cmd_posz
  let endX := argGet args 1
  let endY := argGet args 2
  let centerX := argGet args 3
  let centerY := argGet args 4
  let Dir := argDef args 6 (.num 1)
  let Plg := argDef args 7 (.num 0)
  let reps := argDef args 8 (.num 1)
  let optCG := argDef args 11 (.num 0)
  let noPullUp := argDef args 12 (.num 0)
  let plgFromZero := argDef args 13 (.num 0)
  let currentZ := if ! jsStrictEqB Plg (.num 0) && jsLooseEqB plgFromZero (.num 1)
                  then JSVal.num 0 else startZ
  let safeZCG := jsAdd currentZ stg.safeZpullUp
  -- computed inside `if (optCG == 2)` in the source and used only on that path
  let circRadius := jsSqrt m (jsAdd (jsMul centerX centerX) (jsMul centerY centerY))
  let PocketAngle := jsAtan2 m centerY centerX
  let stepOver := jsMul stg.cutterDia (jsDiv (jsSub (.num 100) stg.pocketOverlap) (.num 100))
  let Pocket_StepX := jsMul stepOver (jsCos m PocketAngle)
  let Pocket_StepY := jsMul stepOver (jsSin m PocketAngle)
  let s := if jsLooseEqB plgFromZero (.num 1)
           then emit_gcode s [.lit "G1Z", .jsv currentZ, .lit "F", .jsv stg.movez_speed]
           else s
  let c : CGCtx := ⟨stg, startX, startY, startZ, endX, endY, centerX, centerY,
                    Dir, Plg, reps, optCG, noPullUp, plgFromZero, safeZCG,
                    circRadius, Pocket_StepX, Pocket_StepY⟩
  let (loopLines, currentZ) := CG_repLoop c fuel fuel 0 currentZ
  let s := { s with current_chunk := s.current_chunk ++ loopLines }
  -- option 4: one flat bottom pass
  let s :=
    if jsLooseEqB optCG (.num 4) then
      let s :=
        if ! jsLooseEqB endX startX || ! jsLooseEqB endY startY then
          let s := emit_gcode s [.lit "G0Z", .jsv safeZCG]
          let s := emit_gcode s [.lit "G0X", .jsv startX, .lit "Y", .jsv startY]
          emit_gcode s [.lit "G1Z", .jsv currentZ, .lit " F", .jsv stg.movez_speed]
        else s
      let outStr : List GTok := if jsStrictEqB Dir (.num 1) then [.lit "G2"] else [.lit "G3"]
      emit_gcode s (outStr ++ [.lit "X", .jsv endX, .lit "Y", .jsv endY,
        .lit "I", .jsv centerX, .lit "K", .jsv centerY, .lit "F", .jsv stg.movexy_speed])
    else s
  let s :=
    if jsStrictEqB noPullUp (.num 0) && ! jsLooseEqB currentZ startZ then
      { emit_gcode s [.lit "G0Z", .jsv startZ] with cmd_posz := startZ }
    else
      let s := if jsLtB (.num 1) optCG && jsLtB optCG (.num 3)
               then emit_gcode s [.lit "G1Z", .jsv currentZ] else s
      { s with cmd_posz := currentZ }
  { s with cmd_posx := endX, cmd_posy := endY }

/-! ## Zeroing (non-breaking variants), coordinate modes and settings -/

/-- `Z3`: set the G55 XYZ work offsets from the runtime's position copy. -/
def Z3 (s : RTState) (_args : List JSVal) : RTState :=
  let s := emit_gcode s [.lit "G10 L2 P2 X", .jsv s.posx, .lit " Y", .jsv s.posy,
                         .lit " Z", .jsv s.posz]
  { s with cmd_posx := .num 0, posx := .num 0, cmd_posy := .num 0, posy := .num 0,
           cmd_posz := .num 0, posz := .num 0 }

/-- `Z4`: set the G55 XYZA work offsets. -/
def Z4 (s : RTState) (_args : List JSVal) : RTState :=
  let s := emit_gcode s [.lit "G10 L2 P2 X", .jsv s.posx, .lit " Y", .jsv s.posy,
                         .lit " Z", .jsv s.posz, .lit " A", .jsv s.posa]
  { s with cmd_posx := .num 0, posx := .num 0, cmd_posy := .num 0, posy := .num 0,
           cmd_posz := .num 0, posz := .num 0, cmd_posa := .num 0, posa := .num 0 }

/-- `Z5`: set the G55 XYZAB work offsets. -/
def Z5 (s : RTState) (_args : List JSVal) : RTState :=
  let s := emit_gcode s [.lit "G10 L2 P2 X", .jsv s.posx, .lit " Y", .jsv s.posy,
                         .lit " Z", .jsv s.posz, .lit " A", .jsv s.posa, .lit " B", .jsv s.posb]
  { s with cmd_posx := .num 0, posx := .num 0, cmd_posy := .num 0, posy := .num 0,
           cmd_posz := .num 0, posz := .num 0, cmd_posa := .num 0, posa := .num 0,
           cmd_posb := .num 0, posb := .num 0 }

/-- `Z6`: set the G55 XYZABC work offsets. -/
def Z6 (s : RTState) (_args : List JSVal) : RTState :=
  let s := emit_gcode s [.lit "G10 L2 P2 X", .jsv s.posx, .lit " Y", .jsv s.posy,
                         .lit " Z", .jsv s.posz, .lit " A", .jsv s.posa, .lit " B", .jsv s.posb,
                         .lit " C", .jsv s.posc]
  { s with cmd_posx := .num 0, posx := .num 0, cmd_posy := .num 0, posy := .num 0,
           cmd_posz := .num 0, posz := .num 0, cmd_posa := .num 0, posa := .num 0,
           cmd_posb := .num 0, posb := .num 0, cmd_posc := .num 0, posc := .num 0 }

/-- `ZT`: select the primary (table-base) coordinate system. -/
def ZT (s : RTState) (_args : List JSVal) : RTState := emit_gcode s [.lit "G54"]

/-- `SA`: absolute coordinates. -/
def SA (s : RTState) (_args : List JSVal) : RTState := emit_gcode s [.lit "G90"]

/-- `SR`: relative coordinates. -/
def SR (s : RTState) (_args : List JSVal) : RTState := emit_gcode s [.lit "G91"]

/-- `ST`: table-base coordinates. -/
def ST (s : RTState) (_args : List JSVal) : RTState := emit_gcode s [.lit "G54"]

/-- `C6`: spindle on (emits `M4` then `M8`). -/
def C6 (s : RTState) (_args : List JSVal) : RTState :=
  emit_gcode (emit_gcode s [.lit "M4"]) [.lit "M8"]

/-- `C7`: spindle off (emits `M5` then `M9`). -/
def C7 (s : RTState) (_args : List JSVal) : RTState :=
  emit_gcode (emit_gcode s [.lit "M5"]) [.lit "M9"]

/-- `VC`: cutter-values settings — cutter diameter (slot 0), safe-Z pull-up
(3), plunge direction (4), pocket overlap (5), safe-A pull-up (6); slots
1–2 are obsolete and 7–11 are commented out in the source. -/
def VC (s : RTState) (args : List JSVal) : RTState :=
  let s := if argGet args 0 ≠ .undefined
    then { s with settings := { s.settings with cutterDia := argGet args 0 } } else s
  let s := if argGet args 3 ≠ .undefined
    then { s with settings := { s.settings with safeZpullUp := argGet args 3 } } else s
  let s := if argGet args 4 ≠ .undefined
    then { s with settings := { s.settings with plungeDir := argGet args 4 } } else s
  let s := if argGet args 5 ≠ .undefined
    then { s with settings := { s.settings with pocketOverlap := argGet args 5 } } else s
  let s := if argGet args 6 ≠ .undefined
    then { s with settings := { s.settings with safeApullUp := argGet args 6 } } else s
  s

/-- `VS`: set move speeds (slots 0–4) and jog speeds (slots 5–9; the jog
slots additionally issue fire-and-forget driver velocity-maximum writes). -/
def VS (s : RTState) (args : List JSVal) : RTState :=
  let s := if argGet args 0 ≠ .undefined
    then { s with settings := { s.settings with movexy_speed := argGet args 0 } } else s
  let s := if argGet args 1 ≠ .undefined
    then { s with settings := { s.settings with movez_speed := argGet args 1 } } else s
  let s := if argGet args 2 ≠ .undefined
    then { s with settings := { s.settings with movea_speed := argGet args 2 } } else s
  let s := if argGet args 3 ≠ .undefined
    then { s with settings := { s.settings with moveb_speed := argGet args 3 } } else s
  let s := if argGet args 4 ≠ .undefined
    then { s with settings := { s.settings with movec_speed := argGet args 4 } } else s
  let s := if argGet args 5 ≠ .undefined
    then { s with settings := { s.settings with jogxy_speed := argGet args 5 } } else s
  let s := if argGet args 6 ≠ .undefined
    then { s with settings := { s.settings with jogz_speed := argGet args 6 } } else s
  let s := if argGet args 7 ≠ .undefined
    then { s with settings := { s.settings with joga_speed := argGet args 7 } } else s
  let s := if argGet args 8 ≠ .undefined
    then { s with settings := { s.settings with jogb_speed := argGet args 8 } } else s
  let s := if argGet args 9 ≠ .undefined
    then { s with settings := { s.settings with jogc_speed := argGet args 9 } } else s
  s

/-- `EP`: probe down. -/
def EP (s : RTState) (args : List JSVal) : RTState :=
  emit_gcode s [.lit "G38.2 Z", .jsv (argGet args 0)]

/-- The empty handlers of the source (`FP`/`FE`/`FN`/`FG`/`FC`/`FS`,
`MI`/`MO`, `SM`/`SP`, `VD`/`VL`/`VN`/`VP`/`VR`): registered no-ops. -/
def emptyHandler (s : RTState) (_args : List JSVal) : RTState := s

/-! ## Command dispatch and the execution engine (`_executeCommand`, `_execute`) -/

/-- The synchronous (arity-1) handler table, keyed by mnemonic, mirroring
the prototype methods of the source.  `CR` (cut rectangle) is registered
in the source too; its 150-line body is not required by any claim below
and is not embedded — no theorem in this file dispatches it. -/
def syncHandlers (m : MathFns) (fuel : ℕ) : String → Option (RTState → List JSVal → RTState)
  | "FP" => some emptyHandler | "FE" => some emptyHandler | "FN" => some emptyHandler
  | "FG" => some emptyHandler | "FC" => some emptyHandler | "FS" => some emptyHandler
  | "MX" => some MX | "MY" => some MY | "MZ" => some MZ | "MA" => some MA
  | "MB" => some MB | "MC" => some MC | "M2" => some M2 | "M3" => some M3
  | "M4" => some M4 | "M5" => some M5 | "M6" => some M6 | "MH" => some MH
  | "MS" => some MS | "MI" => some emptyHandler | "MO" => some emptyHandler
  | "JX" => some JX | "JY" => some JY | "JZ" => some JZ | "JA" => some JA
  | "JB" => some JB | "JC" => some JC | "J2" => some J2 | "J3" => some J3
  | "J4" => some J4 | "J5" => some J5 | "J6" => some J6 | "JH" => some JH
  | "JS" => some JS
  | "CG" => some (CG m fuel)
  | "Z3" => some Z3 | "Z4" => some Z4 | "Z5" => some Z5 | "Z6" => some Z6
  | "ZT" => some ZT
  | "SA" => some SA | "SR" => some SR | "SM" => some emptyHandler
  | "SP" => some emptyHandler | "ST" => some ST | "C6" => some C6 | "C7" => some C7
  | "VC" => some VC | "VD" => some emptyHandler | "VL" => some emptyHandler
  | "VN" => some emptyHandler | "VP" => some emptyHandler | "VR" => some emptyHandler
  | "VS" => some VS
  | "EP" => some EP
  | _ => none

/-- The breaking (arity-2) handlers: they suspend on driver `get`/`set`
round trips, which the model marks with `ExecResult.breaking`. -/
def breakingNames : List String := ["ZX", "ZY", "ZZ", "ZA", "ZB", "ZC", "Z2", "VA", "VU"]

/-- Modelled from the spec: the parameter-default table of the
`sb3_commands` module (a JSON data file, not under `src/`); per §4.5 of
the spec it maps each mnemonic to an ordered parameter list with
per-command constant defaults.  A table entry is the list of
`prm_param.default` values (`.undefined` for a parameter without one); a
mnemonic absent from the table gets an empty scrubbed argument list, as
in the source.  No claim below depends on the table's contents. -/
def Sb3Table : Type := String → Option (List JSVal)

/-- `prm_param.default || undefined`: a falsy declared default is replaced
by `undefined`. -/
def jsOrUndefined (v : JSVal) : JSVal := if v.truthy then v else .undefined

/-- `_evaluateArguments`: scrub the raw argument list against the
command's declared parameters (a present argument wins, a missing or
empty one takes `default || undefined`), then `_eval` each scrubbed entry
in order.  Returns the evaluated values and the accumulated
system-variable-read flag; an evaluation throw aborts. -/
def _evaluateArguments (tbl : Sb3Table) (s : RTState) (command : String)
    (args : List (Option SBPExpr)) : Except String (List JSVal × Bool) :=
  let scrubbed : List (Option SBPExpr ⊕ JSVal) :=
    match tbl command with
    | some params => (List.range params.length).map (fun i =>
        match args.getD i none with
        | some e => .inl (some e)
        | none => .inr (jsOrUndefined (params.getD i .undefined)))
    | none => []
  go scrubbed
where
  /-- Evaluate the scrubbed entries left to right (`_eval` of a plain
  default value re-parses it: a number survives, `undefined` stays
  `undefined`). -/
  go : List (Option SBPExpr ⊕ JSVal) → Except String (List JSVal × Bool)
    | [] => .ok ([], false)
    | entry :: rest => do
        let (v, f) ←
          match entry with
          | .inl none => pure (JSVal.undefined, false)
          | .inl (some e) => _eval s e
          | .inr d => pure (if d = .undefined then JSVal.undefined else parseFloatJS d, false)
        let (vs, fs) ← go rest
        .ok (v :: vs, f || fs)

/-- The outcome of executing one statement: a synchronous state change, a
suspension on a breaking handler's driver round trip (whose completion
callback — `pc += 1` and resume — is outside the model), or a thrown
runtime error. -/
inductive ExecResult where
  | ok (s : RTState)
  | breaking (s : RTState)
  | err (msg : String)
deriving Repr

/-- `_executeCommand`: evaluate the arguments, then run the registered
handler — synchronously (incrementing `pc` after) for an arity-1 handler,
suspending for an arity-2 one.  An unregistered mnemonic is
`_unhandledCommand`: logged and skipped, `pc += 1`. -/
def _executeCommand (m : MathFns) (tbl : Sb3Table) (fuel : ℕ) (s : RTState)
    (command : String) (args : List (Option SBPExpr)) : ExecResult :=
  match syncHandlers m fuel command with
  | some f =>
      match _evaluateArguments tbl s command args with
      | .error e => .err e
      | .ok (vals, flag) =>
          let s := { s with sysvar_evaluated := s.sysvar_evaluated || flag }
          let s := f s vals
          .ok { s with pc := jsAdd s.pc (.num 1) }
  | none =>
      if breakingNames.contains command then
        match _evaluateArguments tbl s command args with
        | .error e => .err e
        | .ok (_, flag) =>
            .breaking { s with sysvar_evaluated := s.sysvar_evaluated || flag }
      else
        .ok { s with pc := jsAdd s.pc (.num 1) }

/-- `_execute` on a (non-falsy) statement.  Faithful oddities:
* `return` guards on `if (this.stack)` — an *array* is always truthy,
  empty or not, so the `throw "Runtime Error: Return with no GOSUB"`
  branch is dead code and popping an empty stack leaves `pc` equal to
  `undefined`;
* `gosub` first reassigns `this.pc` to the label's index and only then
  pushes `[this.pc + 1]`, so the pushed return address is
  `label_index + 1`, not the index after the `gosub`. -/
def _executeStmt (m : MathFns) (tbl : Sb3Table) (fuel : ℕ) (s : RTState) :
    Stmt → ExecResult
  | .cmd command args => _executeCommand m tbl fuel s command args
  | .ret =>
      match s.stack with
      | [] => .ok { s with pc := .undefined }
      | top :: rest => .ok { s with pc := top, stack := rest }
  | .endp => .ok { s with pc := .num (s.program.length : ℚ) }
  | .goto label =>
      match lookup label s.label_index with
      | some i => .ok { s with pc := .num (i : ℚ) }
      | none => .err ("Runtime Error: Unknown Label " ++ label ++ " at line " ++ jsStr s.pc)
  | .gosub label =>
      match lookup label s.label_index with
      | some i => .ok { s with pc := .num (i : ℚ),
                               stack := jsAdd (.num (i : ℚ)) (.num 1) :: s.stack }
      | none => .err ("Runtime Error: Unknown Label " ++ label ++ " at line " ++ jsStr s.pc)
  | .assign var expr =>
      match _eval s expr with
      | .error e => .err e
      | .ok (value, flag) =>
          .ok { s with user_vars := setKey var value s.user_vars,
                       sysvar_evaluated := s.sysvar_evaluated || flag,
                       pc := jsAdd s.pc (.num 1) }
  | .cond cmp stmt =>
      match _eval s cmp with
      | .error e => .err e
      | .ok (v, flag) =>
          let s := { s with sysvar_evaluated := s.sysvar_evaluated || flag }
          if v.truthy then _executeStmt m tbl fuel s stmt
          else .ok { s with pc := jsAdd s.pc (.num 1) }
  | .label _ => .ok { s with pc := jsAdd s.pc (.num 1) }
  | .comment => .ok { s with pc := jsAdd s.pc (.num 1) }
  | .pause oexpr =>
      let s := { s with pc := jsAdd s.pc (.num 1) }
      match oexpr with
      | none => .ok s
      | some e =>
          match _eval s e with
          | .error msg => .err msg
          | .ok (v, flag) =>
              .ok (emit_gcode { s with sysvar_evaluated := s.sysvar_evaluated || flag }
                     [.lit "G4 P", .jsv v])

/-- `_execute`: a falsy line (blank parse result, `undefined`, …) is
skipped — `pc += 1` and nothing else; otherwise dispatch on the statement
type. -/
def _execute (m : MathFns) (tbl : Sb3Table) (fuel : ℕ) (s : RTState) :
    Option Stmt → ExecResult
  | none => .ok { s with pc := jsAdd s.pc (.num 1) }
  | some command => _executeStmt m tbl fuel s command

/-! ## Transformation library (`src/runtime/opensbp/transformation.js`)

Points are `{X, Y, Z}` records whose coordinates may be absent
(`none` = the JS property is `undefined`).  The guards of `scale` and
`translate` test the *truthiness* of a coordinate (`PtNew.X`), so a
coordinate that is present but equal to 0 is skipped exactly like an
absent one. -/

/-- A point of the transformation library, with optional numeric
coordinates. -/
structure Pt where
  X : Option ℚ
  Y : Option ℚ
  Z : Option ℚ
deriving DecidableEq, Repr

/-- One coordinate of `translate`:
`if ( MDist !== 0 && PtNew.C ) { PtNew.C = PtNew.C + MDist; }` — the
offset must be non-zero *and the coordinate truthy* (present and
non-zero) for the addition to happen. -/
def transCoord (c : Option ℚ) (MDist : ℚ) : Option ℚ :=
  match c with
  | some x => if MDist ≠ 0 ∧ x ≠ 0 then some (x + MDist) else some x
  | none => none

/-- `translate(PtNew, MDistX, MDistY, MDistZ)`: add each offset where it
is non-zero and the coordinate is truthy. -/
def translate (PtNew : Pt) (MDistX MDistY MDistZ : ℚ) : Pt :=
  { X := transCoord PtNew.X MDistX
    Y := transCoord PtNew.Y MDistY
    Z := transCoord PtNew.Z MDistZ }

/-- One coordinate of `scale`:
`if ( scaleF !== 1 && PtNew.C ) { PtNew.C = (scaleF*PtNew.C)+(scalePt*(1-scaleF)); }`. -/
def scaleCoord (c : Option ℚ) (scaleF scalePt : ℚ) : Option ℚ :=
  match c with
  | some x => if scaleF ≠ 1 ∧ x ≠ 0 then some (scaleF * x + scalePt * (1 - scaleF)) else some x
  | none => none

/-- `scale(PtNew, scaleX, scaleY, scalePtX, scalePtY)`: scale X and Y
about the origin `(scalePtX, scalePtY)`; a coordinate is touched only
when its scale factor differs from 1 and the coordinate is truthy. -/
def scale (PtNew : Pt) (scaleX scaleY scalePtX scalePtY : ℚ) : Pt :=
  { X := scaleCoord PtNew.X scaleX scalePtX
    Y := scaleCoord PtNew.Y scaleY scalePtY
    Z := PtNew.Z }

/-! ## Concrete fixtures used by the theorems -/

/-- A concrete settings record (arbitrary test values; XY move speed 2,
Z move speed 3, every other entry 1). -/
def stg1 : SbpSettings :=
  { movexy_speed := .num 2, movez_speed := .num 3, movea_speed := .num 1
    moveb_speed := .num 1, movec_speed := .num 1, jogxy_speed := .num 1
    jogz_speed := .num 1, joga_speed := .num 1, jogb_speed := .num 1
    jogc_speed := .num 1, cutterDia := .num 1, pocketOverlap := .num 10
    safeZpullUp := .num 1, safeApullUp := .num 1, plungeDir := .num 1
    gearBoxRatio1 := .num 1 }

/-- A freshly initialised runtime state over `stg1`. -/
def state1 : RTState := { settings := stg1 }

/-- A concrete `MathFns` instance agreeing with real mathematics at the
points the theorems use (`sqrt 1 = 1`, `atan2 0 1 = 0`, `cos 0 = 1`,
`sin 0 = 0`). -/
def mathFix : MathFns :=
  { sqrt := fun q => q, atan2 := fun _ _ => 0, cos := fun _ => 1, sin := fun _ => 0 }

/-- An empty `sb3_commands` table (no theorem below dispatches a command
through `_executeCommand`, so its contents are immaterial). -/
def tblEmpty : Sb3Table := fun _ => none

/-- Decidable equality of `Except` results (for evaluating the analyzers
and the evaluator at concrete inputs). -/
instance {ε α : Type} [DecidableEq ε] [DecidableEq α] : DecidableEq (Except ε α) := fun a b =>
  match a, b with
  | .ok x, .ok y =>
      if h : x = y then .isTrue (by rw [h])
      else .isFalse (by intro hh; cases hh; exact h rfl)
  | .error x, .error y =>
      if h : x = y then .isTrue (by rw [h])
      else .isFalse (by intro hh; cases hh; exact h rfl)
  | .ok _, .error _ => .isFalse (by intro hh; cases hh)
  | .error _, .ok _ => .isFalse (by intro hh; cases hh)

/-- The runtime state for the `GOSUB` example: the four-line program
`GOSUB sub / END / sub: / RETURN`, after label analysis
(`label_index = {sub ↦ 2}`), about to execute line 0. -/
def gosubState : RTState :=
  { settings := stg1
    program := [some (.gosub "sub"), some .endp, some (.label "sub"), some .ret]
    label_index := [("sub", 2)] }

/-- A runtime state whose program counter is 4 (for the `RETURN` claims). -/
def retState : RTState := { settings := stg1, pc := .num 4 }

/-- A runtime state whose settings carry `movexy_speed = 5`. -/
def stateC4 : RTState := { settings := { stg1 with movexy_speed := .num 5 } }

/-- A runtime state whose machine status reports `posx = 7.5`. -/
def stateC5 : RTState := { settings := stg1, status_posx := .num (15/2) }

/-- The state after `VC,0.5` from `state1`: cutter diameter set to 0.5,
everything else untouched. -/
def stateVC : RTState := { state1 with settings := { stg1 with cutterDia := .num (1/2) } }

/-- Evaluated arguments of
`CG,,0,0,1,0,,1,0,1,,,2,0,0` — a pocket cut (option 2, slot 11) of the
circle of radius 1 centred at offset `(1, 0)`, one repetition, no plunge,
with pull-up. -/
def cgPocketArgs : List JSVal :=
  [.undefined, .num 0, .num 0, .num 1, .num 0, .undefined, .num 1, .num 0, .num 1,
   .undefined, .undefined, .num 2, .num 0, .num 0]

/-- The truthiness guard of `translate`/`scale` cannot send this
coordinate to exactly zero: either the coordinate is absent, or the
offset is zero, or the coordinate is zero, or their sum is non-zero. -/
def safeCoord (c : Option ℚ) (d : ℚ) : Bool :=
  match c with
  | none => true
  | some x => ! (d ≠ 0 && x ≠ 0 && x + d = 0)

/-- A coordinate satisfying `safeCoord` returns to its original value
after translating by `d` and then by `-d`. -/
theorem transCoord_roundtrip (c : Option ℚ) (d : ℚ) (h : safeCoord c d = true) :
    transCoord (transCoord c d) (-d) = c := by
  match c with
  | none => rfl
  | some x =>
    simp only [safeCoord] at h
    by_cases hd : d = 0
    · simp [transCoord, hd]
    · by_cases hx : x = 0
      · simp [transCoord, hd, hx]
      · have hxd : x + d ≠ 0 := by
          simp at h
          rcases h with (h | h) | h
          · exact absurd h hd
          · exact absurd h hx
          · exact h
        have hsum : x + d + -d = x := by ring
        simp [transCoord, hd, hx, hxd, hsum]

/-! ## The claims -/

/-- Claim C1 (the code contradicts it): the stack-break classifier ignores
expressions entirely.  A `Cmd` whose argument reads the system variable
`%(1)` (`MX,%(1)`), an `Assign` from `%(1)`, and a `Cond` testing `%(1)`
are all classified non-breaking, even though `_exprBreaksStack` — dead
code whose call sites are commented out — does recognise the
system-variable reference. -/
theorem breaksStack_ignores_sysvar_reads :
    _breaksStack (.cmd "MX" [some (.leaf (.sysvar 1))]) = false
    ∧ _breaksStack (.assign "&a" (.leaf (.sysvar 1))) = false
    ∧ _breaksStack (.cond (.leaf (.sysvar 1)) (.assign "&a" (.leaf (.num 1)))) = false
    ∧ _breaksStack (.pause (some (.leaf (.sysvar 1)))) = false
    ∧ _exprBreaksStack (.leaf (.sysvar 1)) = true := by
  decide

/-- Claim C2 (the code contradicts it): executing `GOSUB sub` at `pc = 0`
with `label_index = {sub ↦ 2}` sets `pc` to 2 but pushes `3` — the
label's index plus one, because the source reassigns `this.pc` *before*
pushing `[this.pc + 1]` — and not `1`, the index of the statement after
the `GOSUB`, as the claim requires. -/
theorem gosub_pushes_label_index_plus_one :
    _execute mathFix tblEmpty 0 gosubState (some (.gosub "sub")) =
      .ok { gosubState with pc := .num 2, stack := [.num 3] }
    ∧ gosubState.pc = .num 0
    ∧ (JSVal.num 3) ≠ (.num (0 + 1)) := by
  refine ⟨?_, rfl, by norm_num⟩
  simp [_execute, _executeStmt, gosubState, lookup, jsAdd, JSVal.toNum]
  norm_num

set_option maxRecDepth 16000 in
set_option maxHeartbeats 4000000 in
/-- Claim C3 (the code contradicts it): after `VC` sets `cutterDia = 0.5`,
a `CG` pocket cut (option 2) still steps over by
`0.25·(1 − 10/100) = 0.225` — the first reposition line of the pocket is
`G1 X0.2250 …` — because `CG` overwrites `cutterDia` with 0.25 (and
`pocketOverlap` with 10) at entry; the claimed step-over
`d·(1 − pocketOverlap/100) = 0.45` never occurs. -/
theorem cg_pocket_step_over_ignores_vc (m : MathFns)
    (h1 : m.sqrt 1 = 1) (h2 : m.atan2 0 1 = 0) (h3 : m.cos 0 = 1) (h4 : m.sin 0 = 0) :
    VC state1 [.num (1/2)] = stateVC
    ∧ ((CG m 7 stateVC cgPocketArgs).current_chunk.getD 1 [],
       (CG m 7 stateVC cgPocketArgs).settings.cutterDia) =
      ([.lit "G1X", .fixed4 (.num (9/40)), .lit "Y", .fixed4 (.num 0),
        .lit "F", .jsv (.num 2)], .num (1/4))
    ∧ (9/40 : ℚ) = (1/4) * (1 - 10/100)
    ∧ (9/40 : ℚ) ≠ (1/2) * (1 - 10/100) := by
  refine ⟨by simp [stateVC, VC, state1, argGet], ?_, by norm_num, by norm_num⟩
  have a1 : argGet cgPocketArgs 1 = JSVal.num 0 := by simp [argGet, cgPocketArgs]
  have a2 : argGet cgPocketArgs 2 = JSVal.num 0 := by simp [argGet, cgPocketArgs]
  have a3 : argGet cgPocketArgs 3 = JSVal.num 1 := by simp [argGet, cgPocketArgs]
  have a4 : argGet cgPocketArgs 4 = JSVal.num 0 := by simp [argGet, cgPocketArgs]
  have d6 : argDef cgPocketArgs 6 (.num 1) = JSVal.num 1 := by
    simp [argDef, argGet, cgPocketArgs]
  have d7 : argDef cgPocketArgs 7 (.num 0) = JSVal.num 0 := by
    simp [argDef, argGet, cgPocketArgs]
  have d8 : argDef cgPocketArgs 8 (.num 1) = JSVal.num 1 := by
    simp [argDef, argGet, cgPocketArgs]
  have d11 : argDef cgPocketArgs 11 (.num 0) = JSVal.num 2 := by
    simp [argDef, argGet, cgPocketArgs]
  have d12 : argDef cgPocketArgs 12 (.num 0) = JSVal.num 0 := by
    simp [argDef, argGet, cgPocketArgs]
  have d13 : argDef cgPocketArgs 13 (.num 0) = JSVal.num 0 := by
    simp [argDef, argGet, cgPocketArgs]
  have hA : jsAtan2 m (JSVal.num 0) (JSVal.num 1) = JSVal.num 0 := by
    simp [jsAtan2, JSVal.toNum, h2]
  have hC : jsCos m (JSVal.num 0) = JSVal.num 1 := by simp [jsCos, JSVal.toNum, h3]
  have hS : jsSin m (JSVal.num 0) = JSVal.num 0 := by simp [jsSin, JSVal.toNum, h4]
  have hQ : jsSqrt m (jsAdd (jsMul (JSVal.num 1) (JSVal.num 1))
      (jsMul (JSVal.num 0) (JSVal.num 0))) = JSVal.num 1 := by
    norm_num [jsSqrt, jsAdd, jsMul, jsNeg, JSVal.toNum, h1]
  unfold CG
  dsimp only
  rw [a1, a2, a3, a4, d6, d7, d8, d11, d12, d13, hQ, hA, hC, hS]
  norm_num [stateVC, state1, stg1, CG_repLoop, CG_pocketPass, jsLtB, jsLeB, jsAbs, jsMul,
    jsAdd, jsDiv, jsSub, jsNeg, jsLooseEqB, jsStrictEqB, JSVal.toNum, abs_le,
    emit_gcode, List.getD]

/-- Witness for C3: the hypotheses of `cg_pocket_step_over_ignores_vc`
hold of the concrete `mathFix` table, and the theorem applies to it. -/
theorem cg_pocket_step_over_ignores_vc_w :
    (mathFix.sqrt 1 = 1 ∧ mathFix.atan2 0 1 = 0 ∧ mathFix.cos 0 = 1 ∧ mathFix.sin 0 = 0)
    ∧ (CG mathFix 7 stateVC cgPocketArgs).current_chunk.getD 1 [] =
      [.lit "G1X", .fixed4 (.num (9/40)), .lit "Y", .fixed4 (.num 0),
       .lit "F", .jsv (.num 2)] :=
  ⟨⟨rfl, rfl, rfl, rfl⟩,
    congrArg Prod.fst (cg_pocket_step_over_ignores_vc mathFix rfl rfl rfl rfl).2.1⟩

/-- Claim C4 (the code contradicts it): with `movexy_speed = 5`, `M6`
emits `G1X1F5` and `MH` emits `G1X0Y0 F5` — their feed words carry the
raw speed, not `60·5 = 300` — while `MX` does emit `F300`. -/
theorem m6_mh_feed_words_lack_sixty_factor :
    (M6 stateC4 [.num 1]).current_chunk =
      [[.lit "G1", .lit "X", .jsv (.num 1), .lit "F", .jsv (.num 5)]]
    ∧ (MH stateC4 []).current_chunk = [[.lit "G1X0Y0", .lit " F", .jsv (.num 5)]]
    ∧ (MX stateC4 [.num 1]).current_chunk =
      [[.lit "G1 X", .jsv (.num 1), .lit " F", .jsv (.num 300)]]
    ∧ (JSVal.num 5) ≠ (.num (60 * 5)) := by
  refine ⟨?_, ?_, ?_, ?_⟩ <;>
    (simp [M6, MH, MX, stateC4, stg1, emit_gcode, argGet, jsMul, JSVal.toNum]
     try norm_num)

/-- Claim C5 (the code contradicts it): with no user variables defined,
evaluating the unknown system variable `%(99)` or the undefined user
variable `&x` returns `undefined` without raising any error, and `1/0`
returns `Infinity`; only an unsupported operator (here `^`) actually
throws.  The last conjunct shows the ordinary path: `%(1)` reads
`posx = 7.5` and sets the system-variable flag. -/
theorem eval_unknown_refs_and_div_zero_silent :
    _eval stateC5 (.leaf (.sysvar 99)) = .ok (.undefined, false)
    ∧ _eval stateC5 (.leaf (.uservar "&x")) = .ok (.undefined, false)
    ∧ _eval stateC5 (.bin "/" (.leaf (.num 1)) (.leaf (.num 0))) = .ok (.pinf, false)
    ∧ _eval stateC5 (.bin "^" (.leaf (.num 1)) (.leaf (.num 2))) =
        .error "Unhandled operation: ^"
    ∧ _eval stateC5 (.leaf (.sysvar 1)) = .ok (.num (15/2), true) := by
  refine ⟨?_, ?_, ?_, by decide, ?_⟩ <;>
    norm_num [_eval, _eval_value, evalOp, evaluateSystemVariable, evaluateUserVariable,
      leafParseFloat, parseFloatJS, lookup, stateC5, stg1, jsDiv, JSVal.toNum,
      bind, Except.bind]

/-- Claim C6 (the code contradicts it): executing `RETURN` with an empty
return stack raises no error — the guard `if (this.stack)` tests the
always-truthy array object, so `pop()` yields `undefined`, which becomes
the new `pc`.  With a non-empty stack the top entry is popped into `pc`,
as the claim's second half says. -/
theorem return_on_empty_stack_raises_no_error :
    _execute mathFix tblEmpty 0 retState (some .ret) = .ok { retState with pc := .undefined }
    ∧ _execute mathFix tblEmpty 0 { retState with stack := [.num 7, .num 9] } (some .ret) =
        .ok { retState with pc := .num 7, stack := [.num 9] } := by
  constructor <;> simp [_execute, _executeStmt, retState]

/-- Claim C7 (the code contradicts its "exactly when"): the reference pass
rejects the one-line program `IF 1 THEN &b=2` — which has no `GOTO`, no
`GOSUB` and no labels at all — with `Undefined label undefined on line 1`,
because the `cond` case falls through into the label check without
testing the inner statement's type.  The remaining conjuncts confirm the
claimed behaviours: duplicate labels are fatal, a missing `GOTO` target
is reported with its 1-based line number, and a resolvable program
passes both passes. -/
theorem analyzeGOTOs_rejects_cond_without_branch :
    _analyzeGOTOs [some (.cond (.leaf (.num 1)) (.assign "&b" (.leaf (.num 2))))] [] =
      .error "Undefined label undefined on line 1"
    ∧ _analyzeLabels [some (.label "a"), none, some (.label "a")] = .error "Duplicate label."
    ∧ _analyzeGOTOs [some (.goto "x"), some (.gosub "x")] [] =
        .error "Undefined label x on line 1"
    ∧ _analyzeGOTOs [none, some (.gosub "x")] [] = .error "Undefined label x on line 2"
    ∧ _analyzeLabels [some (.label "x"), some (.goto "x")] = .ok [("x", 0)]
    ∧ _analyzeGOTOs [some (.label "x"), some (.goto "x"),
        some (.cond (.leaf (.num 1)) (.goto "x"))] [("x", 0)] = .ok () := by
  decide

/-- Claim C8, as stated, is false: translating `(5, 5, 5)` by
`(−5, 0, 0)` moves X to 0, and the inverse translation by `(5, 0, 0)`
skips the now-zero (falsy) coordinate, returning `(0, 5, 5)` instead of
the original point. -/
theorem translate_roundtrip_fails_at_zero_crossing :
    translate (translate ⟨some 5, some 5, some 5⟩ (-5) 0 0) 5 0 0 ≠
      (⟨some 5, some 5, some 5⟩ : Pt) := by
  norm_num [translate, transCoord]

/-- Claim C8, amended: `translate(·, a, b, c)` followed by
`translate(·, −a, −b, −c)` is the identity *provided* no present non-zero
coordinate is moved exactly onto 0 by its non-zero offset (`safeCoord`);
at such a coordinate the composition returns 0 instead of the original
value. -/
theorem translate_roundtrip_of_safe (P : Pt) (a b c : ℚ)
    (hX : safeCoord P.X a = true) (hY : safeCoord P.Y b = true)
    (hZ : safeCoord P.Z c = true) :
    translate (translate P a b c) (-a) (-b) (-c) = P := by
  cases P with
  | mk X Y Z =>
    simp only [translate]
    rw [transCoord_roundtrip X a hX, transCoord_roundtrip Y b hY,
        transCoord_roundtrip Z c hZ]

/-- Witness for the amended C8: the round trip at `(1, 2, —)` with offsets
`(1, 1, 1)`, whose coordinates all satisfy `safeCoord`. -/
theorem translate_roundtrip_of_safe_w :
    safeCoord (some 1) 1 = true
    ∧ translate (translate ⟨some 1, some 2, none⟩ 1 1 1) (-1) (-1) (-1) =
        ⟨some 1, some 2, none⟩ :=
  ⟨by norm_num [safeCoord],
   translate_roundtrip_of_safe ⟨some 1, some 2, none⟩ 1 1 1
     (by norm_num [safeCoord]) (by norm_num [safeCoord]) (by norm_num [safeCoord])⟩

/-- Claim C9 (confirmed): `scale` leaves a zero X coordinate at zero for
*every* scale factor and scale origin — the guard `scaleX !== 1 && PtNew.X`
is falsy at 0, so the affine formula is never applied — and symmetrically
for a zero Y coordinate. -/
theorem scale_fixes_zero_coordinates (P : Pt) (sx sy cx cy : ℚ) :
    (P.X = some 0 → (scale P sx sy cx cy).X = some 0)
    ∧ (P.Y = some 0 → (scale P sx sy cx cy).Y = some 0) := by
  constructor <;> intro h <;> simp [scale, scaleCoord, h]

/-- Witness for C9, at a point with both coordinates zero, scale factors
`(2, 5)` and origin `(3, 7)` — where the affine formula would give
`2·0 + 3·(1−2) = −3 ≠ 0` for X. -/
theorem scale_fixes_zero_coordinates_w :
    ((⟨some 0, some 0, none⟩ : Pt).X = some 0)
    ∧ (scale ⟨some 0, some 0, none⟩ 2 5 3 7).X = some 0
    ∧ (2 * 0 + 3 * (1 - 2) : ℚ) ≠ 0 :=
  ⟨rfl, (scale_fixes_zero_coordinates ⟨some 0, some 0, none⟩ 2 5 3 7).1 rfl, by norm_num⟩

/-- Claim C10 (confirmed): executing a falsy (blank) line from any state
whose `pc` is the number `p` yields, with no error, the state whose `pc`
is `p + 1` and whose every other field — stack, user variables, chunk,
settings, commanded and mirrored positions — is untouched (the right-hand
side is `s` with only `pc` replaced). -/
theorem execute_falsy_line_increments_pc_only (m : MathFns) (tbl : Sb3Table) (fuel : ℕ)
    (s : RTState) (p : ℚ) (h : s.pc = .num p) :
    _execute m tbl fuel s none = .ok { s with pc := .num (p + 1) } := by
  simp [_execute, jsAdd, JSVal.toNum, h]

/-- Witness for C10: the freshly initialised state executes a blank line
to `pc = 1` with everything else unchanged. -/
theorem execute_falsy_line_increments_pc_only_w :
    state1.pc = .num 0
    ∧ _execute mathFix tblEmpty 0 state1 none = .ok { state1 with pc := .num (0 + 1) } :=
  ⟨rfl, execute_falsy_line_increments_pc_only mathFix tblEmpty 0 state1 0 rfl⟩

end SBP
